import Mathlib

/-!
Verification of the search-progress pub/sub manager of the gymintel-web
backend (`app/services/search_progress.py`) and of the GraphQL
subscription resolver `Subscription.search_progress`
(`app/graphql/schema.py`), as a shallow embedding.

Python dictionaries (`self._searches`, `self._subscribers`) are modelled
as association lists with `Nat` keys; `datetime` values are rationals
(seconds); `float` progress values are rationals; `asyncio.Queue`
objects are identified by allocation order (`Nat`) with their contents
stored in the manager-state's `queues` table.  `await queue.put` for a
subscriber queue may fail (the source wraps it in `try/except`); this
possibility is modelled by a `fails : Nat → Bool` oracle.
-/

namespace GymIntel

section Dict

variable {α : Type}

/-- Lookup in an association list (Python `d.get(k)` / `d[k]`). -/
def dictGet (k : Nat) : List (Nat × α) → Option α
  | [] => none
  | p :: m => if p.1 = k then some p.2 else dictGet k m

/-- In-place update of the value at a key (Python mutation of `d[k]`). -/
def dictSet (k : Nat) (f : α → α) (m : List (Nat × α)) : List (Nat × α) :=
  m.map (fun p => if p.1 = k then (k, f p.2) else p)

/-- Python dict assignment `d[k] = v`: overwrites in place when the key is
present, otherwise appends (insertion order preserved). -/
def dictInsert (k : Nat) (v : α) (m : List (Nat × α)) : List (Nat × α) :=
  if (dictGet k m).isSome then dictSet k (fun _ => v) m else m ++ [(k, v)]

/-- Python `del d[k]`. -/
def dictDel (k : Nat) (m : List (Nat × α)) : List (Nat × α) :=
  m.filter (fun p => p.1 != k)

/-- The keys of an association list. -/
def dictKeys (m : List (Nat × α)) : List Nat := m.map Prod.fst

end Dict

/-! ## Data model

`SearchProgress` embeds the Strawberry type of the same name
(`app/graphql/schema.py`, lines 147-157); `SearchRecord` embeds the
per-search dictionary stored in `SearchProgressManager._searches`
(`search_progress.py`, lines 32-42); `ManagerState` embeds the mutable
state of a `SearchProgressManager` instance together with the contents of
all subscriber queues and the set of scheduled cleanup tasks. -/

/-- The GraphQL `SearchProgress` snapshot type (schema.py lines 147-157). -/
structure SearchProgress where
  search_id : Nat
  status : String
  progress_percentage : ℚ
  current_step : String
  estimated_completion : Option ℚ
  message : Option String
  location_info : Option String
deriving DecidableEq, Repr

/-- The per-search record dictionary created by `create_search`
(search_progress.py lines 32-42).  `estimated_completion` is not optional:
every assignment to it in the source stores a `datetime`, never `None`. -/
structure SearchRecord where
  location : String
  radius : ℚ
  status : String
  progress : ℚ
  current_step : String
  created_at : ℚ
  estimated_completion : ℚ
  message : Option String
  location_info : Option String
deriving DecidableEq, Repr

/-- The state of a `SearchProgressManager`: the two dictionaries
`_searches` and `_subscribers`, plus (to make queue effects observable)
the contents of every allocated `asyncio.Queue`, fresh-id counters for
search ids (`uuid4` in the source) and queue identities, and the ids with
a pending `_cleanup_search` task. -/
structure ManagerState where
  searches : List (Nat × SearchRecord)
  subscribers : List (Nat × List Nat)
  queues : List (Nat × List SearchProgress)
  nextSearch : Nat
  nextQueue : Nat
  pendingCleanups : List Nat
deriving DecidableEq, Repr

/-- The empty manager built by `SearchProgressManager.__init__`. -/
def initState : ManagerState :=
  { searches := [], subscribers := [], queues := [],
    nextSearch := 0, nextQueue := 0, pendingCleanups := [] }

/-- Model of `json.dumps` restricted to the flat string dictionaries the
manager serializes for `location_info`. -/
def json_dumps (d : List (String × String)) : String :=
  "\x7b" ++ String.intercalate ", "
    (d.map (fun p => "\"" ++ p.1 ++ "\": \"" ++ p.2 ++ "\"")) ++ "\x7d"

/-- Whether `subscribe` failed (`raise ValueError` in the source). -/
def isError {ε β : Type} : Except ε β → Bool
  | Except.error _ => true
  | Except.ok _ => false

/-! ## Operations (search_progress.py) -/

/-- `create_search` (lines 28-48): allocates a fresh id, stores the
initial record, and initializes the empty subscriber list.  The `uuid4`
call is modelled by the `nextSearch` counter. -/
def create_search (st : ManagerState) (location : String) (radius : ℚ)
    (now : ℚ) : ManagerState × Nat :=
  let search_id := st.nextSearch
  let record : SearchRecord :=
    { location := location,
      radius := radius,
      status := "pending",
      progress := 0,
      current_step := "Initializing search",
      created_at := now,
      estimated_completion := now + 30,
      message := none,
      location_info := none }
  ({ st with
      searches := dictInsert search_id record st.searches,
      subscribers := dictInsert search_id [] st.subscribers,
      nextSearch := st.nextSearch + 1 }, search_id)

/-- `await queue.put(progress)` for a subscriber queue (line 107): appends
to the queue, or fails when the `fails` oracle says so (the source guards
each put with `try`/`except`). -/
def queue_put (fails : Nat → Bool) (q : Nat) (snap : SearchProgress)
    (queues : List (Nat × List SearchProgress)) :
    Except String (List (Nat × List SearchProgress)) :=
  if fails q then Except.error "enqueue failed"
  else Except.ok (dictSet q (fun l => l ++ [snap]) queues)

/-- `_notify_subscribers` (lines 100-109): enqueues the snapshot to each
subscriber queue in registration order; a failed put is logged and
skipped.  Returns the new queue contents and the queues actually
delivered to. -/
def notify_subscribers (fails : Nat → Bool) (subs : List Nat)
    (snap : SearchProgress) (queues : List (Nat × List SearchProgress)) :
    List (Nat × List SearchProgress) × List Nat :=
  match subs with
  | [] => (queues, [])
  | q :: rest =>
    match queue_put fails q snap queues with
    | Except.ok queues1 =>
      let r := notify_subscribers fails rest snap queues1
      (r.1, q :: r.2)
    | Except.error _ => notify_subscribers fails rest snap queues

/-- The record after the field mutations of `update_progress`
(lines 64-78): status/progress/step/message are overwritten;
`location_info` is overwritten only when the argument is truthy (a
non-empty dict); `estimated_completion` is recomputed as
`now + (100 - progress) * 0.3` only for non-terminal statuses. -/
def updated_record (search : SearchRecord) (status : String)
    (progress : ℚ) (current_step : String) (message : Option String)
    (location_info : Option (List (String × String))) (now : ℚ) :
    SearchRecord :=
  let search1 : SearchRecord :=
    { search with
      status := status,
      progress := progress,
      current_step := current_step,
      message := message }
  let search2 : SearchRecord :=
    match location_info with
    | some d => if d.isEmpty then search1
                else { search1 with location_info := some (json_dumps d) }
    | none => search1
  if status ∈ (["complete", "error"] : List String) then search2
  else { search2 with
         estimated_completion := now + (100 - progress) * (3 / 10) }

/-- The `SearchProgress` object constructed by `update_progress`
(lines 81-91), built after the record has been mutated: it carries the
record's `estimated_completion` unless the status is `"complete"`, in
which case `None`. -/
def update_snapshot (search_id : Nat) (search3 : SearchRecord)
    (status : String) (progress : ℚ) (current_step : String)
    (message : Option String) : SearchProgress :=
  { search_id := search_id,
    status := status,
    progress_percentage := progress,
    current_step := current_step,
    estimated_completion :=
      if status ≠ "complete" then some search3.estimated_completion
      else none,
    message := message,
    location_info := search3.location_info }

/-- `update_progress` (lines 50-98).  Returns the new state, the snapshot
object constructed (none when the id is unknown), and the list of queues
the snapshot was delivered to. -/
def update_progress (st : ManagerState) (search_id : Nat) (status : String)
    (progress : ℚ) (current_step : String) (message : Option String)
    (location_info : Option (List (String × String))) (now : ℚ)
    (fails : Nat → Bool) :
    ManagerState × Option SearchProgress × List Nat :=
  match dictGet search_id st.searches with
  | none => (st, none, [])
  | some search =>
    let search3 : SearchRecord :=
      updated_record search status progress current_step message
        location_info now
    let progress_obj : SearchProgress :=
      update_snapshot search_id search3 status progress current_step message
    let notified := notify_subscribers fails
      ((dictGet search_id st.subscribers).getD []) progress_obj st.queues
    ({ st with
        searches := dictSet search_id (fun _ => search3) st.searches,
        queues := notified.1,
        pendingCleanups :=
          if status ∈ (["complete", "error"] : List String)
          then st.pendingCleanups ++ [search_id] else st.pendingCleanups },
     some progress_obj, notified.2)

/-- The snapshot of the record's current state that `subscribe` enqueues
on the fresh queue (lines 121-131). -/
def initial_snapshot (search_id : Nat) (search : SearchRecord) :
    SearchProgress :=
  { search_id := search_id,
    status := search.status,
    progress_percentage := search.progress,
    current_step := search.current_step,
    estimated_completion := some search.estimated_completion,
    message := search.message,
    location_info := search.location_info }

/-- The successful branch of `subscribe` (lines 116-133): a fresh queue is
appended to the subscriber list and primed with the current snapshot. -/
def subscribe_state (st : ManagerState) (search_id : Nat)
    (search : SearchRecord) : ManagerState :=
  { st with
    subscribers := dictSet search_id (fun l => l ++ [st.nextQueue])
      st.subscribers,
    queues := dictInsert st.nextQueue [initial_snapshot search_id search]
      st.queues,
    nextQueue := st.nextQueue + 1 }

/-- `subscribe` (lines 111-133): raises `ValueError` on an unknown id,
otherwise registers a fresh queue and primes it. -/
def subscribe (st : ManagerState) (search_id : Nat) :
    Except String (ManagerState × Nat) :=
  match dictGet search_id st.searches with
  | none => Except.error ("Search " ++ toString search_id ++ " not found")
  | some search => Except.ok (subscribe_state st search_id search, st.nextQueue)

/-- `unsubscribe` (lines 135-139): removes the first occurrence of the
queue from the subscriber list if the id is known; `ValueError` from
`list.remove` is suppressed. -/
def unsubscribe (st : ManagerState) (search_id : Nat) (queue : Nat) :
    ManagerState :=
  if (dictGet search_id st.subscribers).isSome then
    { st with
      subscribers := dictSet search_id (fun l => l.erase queue)
        st.subscribers }
  else st

/-- The body of `_cleanup_search` after its 300-second sleep
(lines 145-151): deletes the record and the subscriber list. -/
def cleanup_search (st : ManagerState) (search_id : Nat) : ManagerState :=
  { st with
    searches := dictDel search_id st.searches,
    subscribers := dictDel search_id st.subscribers,
    pendingCleanups := st.pendingCleanups.erase search_id }

/-- `get_search_status` (lines 153-155). -/
def get_search_status (st : ManagerState) (search_id : Nat) :
    Option SearchRecord :=
  dictGet search_id st.searches

/-! ## Reachability

A manager state is reachable when it arises from the empty manager by any
interleaving of the public operations and of scheduled cleanup tasks. -/

/-- One step of the manager: any public operation with arbitrary
arguments, or a scheduled `_cleanup_search` task firing. -/
inductive Step : ManagerState → ManagerState → Prop
  | create (st : ManagerState) (location : String) (radius now : ℚ) :
      Step st (create_search st location radius now).1
  | update (st : ManagerState) (search_id : Nat) (status : String)
      (progress : ℚ) (current_step : String) (message : Option String)
      (location_info : Option (List (String × String))) (now : ℚ)
      (fails : Nat → Bool) :
      Step st (update_progress st search_id status progress current_step
        message location_info now fails).1
  | sub (st : ManagerState) (search_id : Nat) (search : SearchRecord)
      (h : dictGet search_id st.searches = some search) :
      Step st (subscribe_state st search_id search)
  | unsub (st : ManagerState) (search_id queue : Nat) :
      Step st (unsubscribe st search_id queue)
  | cleanup (st : ManagerState) (search_id : Nat)
      (h : search_id ∈ st.pendingCleanups) :
      Step st (cleanup_search st search_id)

/-- States reachable from the freshly constructed manager. -/
inductive Reachable : ManagerState → Prop
  | init : Reachable initState
  | step {st st' : ManagerState} : Reachable st → Step st st' →
      Reachable st'

/-! ## The manager invariant -/

/-- The structural invariant the manager maintains: the record table and
the subscriber table have the same keys (claim C6's property), keys are
unique (Python dict semantics under fresh-id allocation), each subscriber
list is duplicate-free, and every registered queue id was allocated. -/
structure Inv (st : ManagerState) : Prop where
  presence : ∀ sid, (dictGet sid st.searches).isSome
    = (dictGet sid st.subscribers).isSome
  searchKeys : (dictKeys st.searches).Nodup
  subKeys : (dictKeys st.subscribers).Nodup
  subsNodup : ∀ p ∈ st.subscribers, List.Nodup p.2
  subsBound : ∀ p ∈ st.subscribers, ∀ q ∈ p.2, q < st.nextQueue

/-! ## A concrete execution used by witnesses and counterexamples -/

/-- The record stored by `create_search` at time `0` for
`("Austin", 10)`. -/
def recA : SearchRecord :=
  { location := "Austin",
    radius := 10,
    status := "pending",
    progress := 0,
    current_step := "Initializing search",
    created_at := 0,
    estimated_completion := 0 + 30,
    message := none,
    location_info := none }

/-- The manager after `create_search("Austin", 10)` at time `0`. -/
def stA : ManagerState := (create_search initState "Austin" 10 0).1

/-- The manager after an immediate `subscribe` on the new id. -/
def stB : ManagerState := subscribe_state stA 0 recA

/-- The manager after a second `subscribe` on the same id. -/
def stC : ManagerState := subscribe_state stB 0 recA

/-- The manager after a first update that stores a (truthy, non-empty)
`location_info` payload. -/
def stL : ManagerState :=
  (update_progress stB 0 "geocoding" 10 "Converting location" none
    (some [("city", "Austin")]) 1 (fun _ => false)).1

/-- The manager after the one-subscriber state receives a terminal
`"complete"` update (cleanup is scheduled but has not yet run). -/
def stT : ManagerState :=
  (update_progress stB 0 "complete" 100 "done" none none 5
    (fun _ => false)).1

/-- The record stored for id 0 after the `"complete"` update in `stT`. -/
def recT : SearchRecord :=
  updated_record recA "complete" 100 "done" none none 5

/-! ## The GraphQL subscription resolver (schema.py lines 380-410) -/

/-- The synthetic snapshot the resolver yields when `subscribe` raised
`ValueError` (schema.py lines 399-405). -/
def not_found_snapshot (search_id : Nat) : SearchProgress :=
  { search_id := search_id,
    status := "error",
    progress_percentage := 0,
    current_step := "Search not found",
    estimated_completion := none,
    message := some ("Search ID " ++ toString search_id ++ " not found"),
    location_info := none }

/-- The resolver's read loop (schema.py lines 390-396): yield each
snapshot read from the queue, stopping right after the first one whose
status is terminal. -/
def stream_until_terminal : List SearchProgress → List SearchProgress
  | [] => []
  | p :: rest =>
    if p.status ∈ (["complete", "error"] : List String) then [p]
    else p :: stream_until_terminal rest

/-- A consumer that closes the generator after `n` yields (`some n`), or
never (`none`). -/
def takeOpt : Option Nat → List SearchProgress → List SearchProgress
  | none, l => l
  | some n, l => l.take n

/-- Outcome of one run of the subscription resolver: the snapshots it
yielded and whether its `finally` block called `unsubscribe`. -/
structure StreamResult where
  yielded : List SearchProgress
  unsubscribed : Bool
deriving DecidableEq, Repr

/-- `Subscription.search_progress` (schema.py lines 380-410), run to
completion against a manager state.  `arriving` are the snapshots the
queue will deliver after the initial one (they depend on later
`update_progress` calls); `cut` models the consumer disconnecting after
that many yields.  On the `ValueError` path the `finally` block finds no
`queue` in `locals()` and does not unsubscribe; on the success path the
`finally` block always unsubscribes, whether the loop ended at a
terminal snapshot or the consumer disconnected. -/
def search_progress_resolver (st : ManagerState) (search_id : Nat)
    (arriving : List SearchProgress) (cut : Option Nat) :
    StreamResult × ManagerState :=
  match subscribe st search_id with
  | Except.error _ =>
    ({ yielded := takeOpt cut [not_found_snapshot search_id],
       unsubscribed := false }, st)
  | Except.ok (st1, q) =>
    ({ yielded := takeOpt cut (stream_until_terminal
         (((dictGet q st1.queues).getD []) ++ arriving)),
       unsubscribed := true },
     unsubscribe st1 search_id q)

/-! ## Lemmas about the dictionary model -/

section Dict

variable {α : Type}

theorem dictGet_nil (k : Nat) : dictGet k ([] : List (Nat × α)) = none := rfl

theorem dictGet_cons (k : Nat) (p : Nat × α) (m : List (Nat × α)) :
    dictGet k (p :: m) = if p.1 = k then some p.2 else dictGet k m := rfl

theorem dictSet_nil (k : Nat) (f : α → α) : dictSet k f ([] : List (Nat × α)) = [] := rfl

theorem dictSet_cons (k : Nat) (f : α → α) (p : Nat × α) (m : List (Nat × α)) :
    dictSet k f (p :: m) = (if p.1 = k then (k, f p.2) else p) :: dictSet k f m := rfl

theorem dictDel_cons (k : Nat) (p : Nat × α) (m : List (Nat × α)) :
    dictDel k (p :: m) = if p.1 = k then dictDel k m else p :: dictDel k m := by
  by_cases h : p.1 = k
  · simp [dictDel, List.filter_cons, h]
  · simp [dictDel, List.filter_cons, h]

theorem dictGet_dictSet_self (k : Nat) (f : α → α) (m : List (Nat × α)) :
    dictGet k (dictSet k f m) = (dictGet k m).map f := by
  induction m with
  | nil => rfl
  | cons p m ih =>
    rw [dictSet_cons]
    by_cases h : p.1 = k
    · rw [if_pos h, dictGet_cons, dictGet_cons, if_pos h, if_pos rfl]
      rfl
    · rw [if_neg h, dictGet_cons, dictGet_cons, if_neg h, if_neg h, ih]

theorem dictGet_dictSet_ne {k' k : Nat} (h : k' ≠ k) (f : α → α)
    (m : List (Nat × α)) : dictGet k' (dictSet k f m) = dictGet k' m := by
  induction m with
  | nil => rfl
  | cons p m ih =>
    rw [dictSet_cons]
    by_cases hp : p.1 = k
    · rw [if_pos hp, dictGet_cons, dictGet_cons, if_neg (Ne.symm h), ih,
        if_neg (hp ▸ (fun hk => h (hk.symm)) : ¬ p.1 = k')]
    · rw [if_neg hp, dictGet_cons, dictGet_cons]
      by_cases hp' : p.1 = k'
      · rw [if_pos hp', if_pos hp']
      · rw [if_neg hp', if_neg hp', ih]

theorem isSome_dictGet_dictSet (k' k : Nat) (f : α → α) (m : List (Nat × α)) :
    (dictGet k' (dictSet k f m)).isSome = (dictGet k' m).isSome := by
  by_cases h : k' = k
  · subst h; rw [dictGet_dictSet_self]; cases dictGet k' m <;> rfl
  · rw [dictGet_dictSet_ne h]

theorem dictGet_dictInsert_self (k : Nat) (v : α) (m : List (Nat × α)) :
    dictGet k (dictInsert k v m) = some v := by
  unfold dictInsert
  by_cases h : (dictGet k m).isSome
  · rw [if_pos h, dictGet_dictSet_self]
    cases hg : dictGet k m with
    | none => rw [hg] at h; simp at h
    | some w => rfl
  · rw [if_neg h]
    induction m with
    | nil => simp [dictGet]
    | cons p m ih =>
      by_cases hp : p.1 = k
      · exact absurd (by rw [dictGet_cons, if_pos hp]; rfl) h
      · rw [List.cons_append, dictGet_cons, if_neg hp]
        exact ih (by rwa [dictGet_cons, if_neg hp] at h)

theorem dictGet_dictInsert_ne {k' k : Nat} (h : k' ≠ k) (v : α)
    (m : List (Nat × α)) : dictGet k' (dictInsert k v m) = dictGet k' m := by
  unfold dictInsert
  by_cases hs : (dictGet k m).isSome
  · rw [if_pos hs, dictGet_dictSet_ne h]
  · rw [if_neg hs]
    induction m with
    | nil => simp [dictGet, Ne.symm h]
    | cons p m ih =>
      rw [List.cons_append, dictGet_cons, dictGet_cons]
      by_cases hp : p.1 = k'
      · rw [if_pos hp, if_pos hp]
      · rw [if_neg hp, if_neg hp]
        by_cases hpk : p.1 = k
        · exact absurd (by rw [dictGet_cons, if_pos hpk]; rfl) hs
        · exact ih (by rwa [dictGet_cons, if_neg hpk] at hs)

theorem dictGet_dictDel_self (k : Nat) (m : List (Nat × α)) :
    dictGet k (dictDel k m) = none := by
  induction m with
  | nil => rfl
  | cons p m ih =>
    rw [dictDel_cons]
    by_cases h : p.1 = k
    · rw [if_pos h]; exact ih
    · rw [if_neg h, dictGet_cons, if_neg h]; exact ih

theorem dictGet_dictDel_ne {k' k : Nat} (h : k' ≠ k) (m : List (Nat × α)) :
    dictGet k' (dictDel k m) = dictGet k' m := by
  induction m with
  | nil => rfl
  | cons p m ih =>
    rw [dictDel_cons]
    by_cases hp : p.1 = k
    · rw [if_pos hp, dictGet_cons, if_neg (hp ▸ (fun hk => h hk.symm) : ¬ p.1 = k')]
      exact ih
    · rw [if_neg hp, dictGet_cons, dictGet_cons]
      by_cases hp' : p.1 = k'
      · rw [if_pos hp', if_pos hp']
      · rw [if_neg hp', if_neg hp']; exact ih

theorem dictGet_eq_none_iff (k : Nat) (m : List (Nat × α)) :
    dictGet k m = none ↔ k ∉ dictKeys m := by
  induction m with
  | nil => simp [dictGet, dictKeys]
  | cons p m ih =>
    rw [dictGet_cons]
    by_cases h : p.1 = k
    · simp [dictKeys, h]
    · simp [dictKeys, h, Ne.symm h, ih]

theorem dictKeys_dictSet (k : Nat) (f : α → α) (m : List (Nat × α)) :
    dictKeys (dictSet k f m) = dictKeys m := by
  induction m with
  | nil => rfl
  | cons p m ih =>
    rw [dictSet_cons]
    by_cases h : p.1 = k
    · rw [if_pos h]
      simp only [dictKeys, List.map_cons] at *
      rw [ih, h]
    · rw [if_neg h]
      simp only [dictKeys, List.map_cons] at *
      rw [ih]

theorem dictKeys_dictInsert_nodup {m : List (Nat × α)}
    (h : (dictKeys m).Nodup) (k : Nat) (v : α) :
    (dictKeys (dictInsert k v m)).Nodup := by
  unfold dictInsert
  by_cases hs : (dictGet k m).isSome
  · rw [if_pos hs, dictKeys_dictSet]; exact h
  · have hk : k ∉ dictKeys m := by
      rw [← dictGet_eq_none_iff]
      cases hg : dictGet k m with
      | none => rfl
      | some w => rw [hg] at hs; simp at hs
    rw [if_neg hs]
    simp only [dictKeys, List.map_append, List.map_cons, List.map_nil]
    exact List.Nodup.append h (by simp) (by simpa [dictKeys, List.disjoint_singleton] using hk)

theorem mem_dictSet {p : Nat × α} {k : Nat} {f : α → α} {m : List (Nat × α)}
    (hp : p ∈ dictSet k f m) : p ∈ m ∨ ∃ v, (k, v) ∈ m ∧ p = (k, f v) := by
  induction m with
  | nil => simp [dictSet] at hp
  | cons q m ih =>
    rw [dictSet_cons, List.mem_cons] at hp
    rcases hp with hp | hp
    · by_cases h : q.1 = k
      · rw [if_pos h] at hp
        exact Or.inr ⟨q.2, by simp [← h], hp⟩
      · rw [if_neg h] at hp
        exact Or.inl (by simp [hp])
    · rcases ih hp with h | ⟨v, hv, hpv⟩
      · exact Or.inl (List.mem_cons_of_mem _ h)
      · exact Or.inr ⟨v, List.mem_cons_of_mem _ hv, hpv⟩

theorem mem_dictDel {p : Nat × α} {k : Nat} {m : List (Nat × α)}
    (hp : p ∈ dictDel k m) : p ∈ m := List.mem_of_mem_filter hp

theorem mem_dictInsert {p : Nat × α} {k : Nat} {v : α} {m : List (Nat × α)}
    (hp : p ∈ dictInsert k v m) : p ∈ m ∨ p = (k, v) := by
  unfold dictInsert at hp
  by_cases hs : (dictGet k m).isSome
  · rw [if_pos hs] at hp
    rcases mem_dictSet hp with h | ⟨w, _, hpw⟩
    · exact Or.inl h
    · exact Or.inr hpw
  · rw [if_neg hs, List.mem_append, List.mem_singleton] at hp
    exact hp

theorem dictGet_of_mem_nodupKeys {m : List (Nat × α)} {k : Nat} {v : α}
    (h : (dictKeys m).Nodup) (hp : (k, v) ∈ m) : dictGet k m = some v := by
  induction m with
  | nil => simp at hp
  | cons q m ih =>
    simp only [dictKeys, List.map_cons, List.nodup_cons] at h
    rcases List.mem_cons.mp hp with hq | hq
    · rw [← hq, dictGet_cons, if_pos rfl]
    · have hqk : q.1 ≠ k := by
        intro hqk
        exact h.1 (by simpa [hqk] using List.mem_map_of_mem Prod.fst hq)
      rw [dictGet_cons, if_neg hqk]
      exact ih h.2 hq

theorem dictSet_congr_of {k : Nat} {f g : α → α} {m : List (Nat × α)}
    (h : ∀ p ∈ m, p.1 = k → f p.2 = g p.2) : dictSet k f m = dictSet k g m := by
  induction m with
  | nil => rfl
  | cons p m ih =>
    have hm : dictSet k f m = dictSet k g m :=
      ih (fun q hq => h q (List.mem_cons_of_mem _ hq))
    rw [dictSet_cons, dictSet_cons, hm]
    by_cases hp : p.1 = k
    · rw [if_pos hp, if_pos hp, h p (List.mem_cons_self p m) hp]
    · rw [if_neg hp, if_neg hp]

theorem dictSet_eq_self_of {k : Nat} {f : α → α} {m : List (Nat × α)}
    (h : ∀ p ∈ m, p.1 = k → f p.2 = p.2) : dictSet k f m = m := by
  induction m with
  | nil => rfl
  | cons p m ih =>
    have hm : dictSet k f m = m := ih (fun q hq => h q (List.mem_cons_of_mem _ hq))
    rw [dictSet_cons, hm]
    by_cases hp : p.1 = k
    · rw [if_pos hp, h p (List.mem_cons_self p m) hp, ← hp]
    · rw [if_neg hp]

theorem dictSet_dictSet (k : Nat) (f g : α → α) (m : List (Nat × α)) :
    dictSet k f (dictSet k g m) = dictSet k (fun v => f (g v)) m := by
  induction m with
  | nil => rfl
  | cons p m ih =>
    rw [dictSet_cons, dictSet_cons, dictSet_cons]
    by_cases hp : p.1 = k
    · rw [if_pos hp, if_pos hp, if_pos rfl, ih]
    · rw [if_neg hp, if_neg hp, if_neg hp, ih]

end Dict

/-! ## Properties of the manager operations -/

/-! ## Unfolding equations for the operations -/

theorem update_progress_of_none {st : ManagerState} {search_id : Nat}
    (status : String) (progress : ℚ) (current_step : String)
    (message : Option String)
    (location_info : Option (List (String × String))) (now : ℚ)
    (fails : Nat → Bool) (h : dictGet search_id st.searches = none) :
    update_progress st search_id status progress current_step message
      location_info now fails = (st, none, []) := by
  unfold update_progress
  rw [h]

theorem update_progress_of_some {st : ManagerState} {search_id : Nat}
    {search : SearchRecord} (status : String) (progress : ℚ)
    (current_step : String) (message : Option String)
    (location_info : Option (List (String × String))) (now : ℚ)
    (fails : Nat → Bool) (h : dictGet search_id st.searches = some search) :
    update_progress st search_id status progress current_step message
      location_info now fails =
    ({ st with
        searches := dictSet search_id
          (fun _ => updated_record search status progress current_step
            message location_info now) st.searches,
        queues := (notify_subscribers fails
          ((dictGet search_id st.subscribers).getD [])
          (update_snapshot search_id
            (updated_record search status progress current_step message
              location_info now) status progress current_step message)
          st.queues).1,
        pendingCleanups :=
          if status ∈ (["complete", "error"] : List String)
          then st.pendingCleanups ++ [search_id]
          else st.pendingCleanups },
     some (update_snapshot search_id
       (updated_record search status progress current_step message
         location_info now) status progress current_step message),
     (notify_subscribers fails ((dictGet search_id st.subscribers).getD [])
       (update_snapshot search_id
         (updated_record search status progress current_step message
           location_info now) status progress current_step message)
       st.queues).2) := by
  unfold update_progress
  rw [h]

theorem subscribe_of_none {st : ManagerState} {search_id : Nat}
    (h : dictGet search_id st.searches = none) :
    subscribe st search_id =
      Except.error ("Search " ++ toString search_id ++ " not found") := by
  unfold subscribe
  rw [h]

theorem subscribe_of_some {st : ManagerState} {search_id : Nat}
    {search : SearchRecord}
    (h : dictGet search_id st.searches = some search) :
    subscribe st search_id =
      Except.ok (subscribe_state st search_id search, st.nextQueue) := by
  unfold subscribe
  rw [h]

theorem inv_init : Inv initState := by
  constructor <;> simp [initState, dictGet, dictKeys]

theorem inv_create {st : ManagerState} (h : Inv st) (location : String)
    (radius now : ℚ) : Inv (create_search st location radius now).1 := by
  unfold create_search
  constructor
  · intro sid
    by_cases hs : sid = st.nextSearch
    · subst hs
      simp [dictGet_dictInsert_self]
    · simp [dictGet_dictInsert_ne hs, h.presence sid]
  · exact dictKeys_dictInsert_nodup h.searchKeys _ _
  · exact dictKeys_dictInsert_nodup h.subKeys _ _
  · intro p hp
    rcases mem_dictInsert hp with hm | hm
    · exact h.subsNodup p hm
    · rw [hm]; exact List.nodup_nil
  · intro p hp q hq
    rcases mem_dictInsert hp with hm | hm
    · exact h.subsBound p hm q hq
    · rw [hm] at hq; simp at hq

theorem inv_update {st : ManagerState} (h : Inv st) (search_id : Nat)
    (status : String) (progress : ℚ) (current_step : String)
    (message : Option String)
    (location_info : Option (List (String × String))) (now : ℚ)
    (fails : Nat → Bool) :
    Inv (update_progress st search_id status progress current_step message
      location_info now fails).1 := by
  cases hg : dictGet search_id st.searches with
  | none =>
    rw [update_progress_of_none status progress current_step message
      location_info now fails hg]
    exact h
  | some search =>
    rw [update_progress_of_some status progress current_step message
      location_info now fails hg]
    constructor
    · intro sid
      rw [isSome_dictGet_dictSet]
      exact h.presence sid
    · rw [dictKeys_dictSet]; exact h.searchKeys
    · exact h.subKeys
    · exact h.subsNodup
    · exact h.subsBound

theorem inv_subscribe_state {st : ManagerState} (h : Inv st)
    (search_id : Nat) (search : SearchRecord) :
    Inv (subscribe_state st search_id search) := by
  unfold subscribe_state
  constructor
  · intro sid
    rw [isSome_dictGet_dictSet]
    exact h.presence sid
  · exact h.searchKeys
  · rw [dictKeys_dictSet]; exact h.subKeys
  · intro p hp
    dsimp only at hp
    rcases mem_dictSet hp with hm | ⟨l, hl, hpl⟩
    · exact h.subsNodup p hm
    · rw [hpl]
      refine List.Nodup.append (h.subsNodup _ hl) (by simp) ?_
      rw [List.disjoint_singleton]
      intro hmem
      exact absurd (h.subsBound _ hl _ hmem) (lt_irrefl _)
  · intro p hp q hq
    dsimp only at hp
    rcases mem_dictSet hp with hm | ⟨l, hl, hpl⟩
    · exact Nat.lt_succ_of_lt (h.subsBound p hm q hq)
    · rw [hpl] at hq
      rcases List.mem_append.mp hq with hmem | hmem
      · exact Nat.lt_succ_of_lt (h.subsBound _ hl q hmem)
      · rw [List.mem_singleton.mp hmem]
        exact Nat.lt_succ_self _

theorem inv_unsubscribe {st : ManagerState} (h : Inv st)
    (search_id queue : Nat) : Inv (unsubscribe st search_id queue) := by
  unfold unsubscribe
  by_cases hs : (dictGet search_id st.subscribers).isSome
  · rw [if_pos hs]
    constructor
    · intro sid
      rw [isSome_dictGet_dictSet]
      exact h.presence sid
    · exact h.searchKeys
    · rw [dictKeys_dictSet]; exact h.subKeys
    · intro p hp
      dsimp only at hp
      rcases mem_dictSet hp with hm | ⟨l, hl, hpl⟩
      · exact h.subsNodup p hm
      · rw [hpl]
        exact List.Nodup.erase _ (h.subsNodup _ hl)
    · intro p hp q hq
      dsimp only at hp
      rcases mem_dictSet hp with hm | ⟨l, hl, hpl⟩
      · exact h.subsBound p hm q hq
      · rw [hpl] at hq
        exact h.subsBound _ hl q (List.mem_of_mem_erase hq)
  · rw [if_neg hs]
    exact h

theorem dictKeys_dictDel_sublist {α : Type} (k : Nat)
    (m : List (Nat × α)) :
    List.Sublist (dictKeys (dictDel k m)) (dictKeys m) :=
  List.Sublist.map Prod.fst (List.filter_sublist m)

theorem inv_cleanup {st : ManagerState} (h : Inv st) (search_id : Nat) :
    Inv (cleanup_search st search_id) := by
  unfold cleanup_search
  constructor
  · intro sid
    by_cases hs : sid = search_id
    · subst hs
      rw [dictGet_dictDel_self, dictGet_dictDel_self]
      rfl
    · rw [dictGet_dictDel_ne hs, dictGet_dictDel_ne hs]
      exact h.presence sid
  · exact List.Nodup.sublist (dictKeys_dictDel_sublist _ _) h.searchKeys
  · exact List.Nodup.sublist (dictKeys_dictDel_sublist _ _) h.subKeys
  · intro p hp
    exact h.subsNodup p (mem_dictDel hp)
  · intro p hp q hq
    exact h.subsBound p (mem_dictDel hp) q hq

/-- Every reachable manager state satisfies the invariant. -/
theorem reachable_inv {st : ManagerState} (h : Reachable st) : Inv st := by
  induction h with
  | init => exact inv_init
  | step _ hstep ih =>
    cases hstep with
    | create location radius now => exact inv_create ih location radius now
    | update search_id status progress current_step message
        location_info now fails =>
      exact inv_update ih search_id status progress current_step message
        location_info now fails
    | sub search_id search hget => exact inv_subscribe_state ih search_id search
    | unsub search_id queue => exact inv_unsubscribe ih search_id queue
    | cleanup search_id hpend => exact inv_cleanup ih search_id

/-! ## Delivery lemmas for `_notify_subscribers` -/

/-- The queues delivered to are exactly the subscribers whose put did not
fail, in registration order: one failure neither blocks later deliveries
nor escapes (`notify_subscribers` is total). -/
theorem notify_delivered (fails : Nat → Bool) (subs : List Nat)
    (snap : SearchProgress) (queues : List (Nat × List SearchProgress)) :
    (notify_subscribers fails subs snap queues).2
      = subs.filter (fun q => !fails q) := by
  induction subs generalizing queues with
  | nil => rfl
  | cons q rest ih =>
    rw [List.filter_cons]
    by_cases hf : fails q
    · simp only [notify_subscribers, queue_put, hf, if_pos, hf,
        Bool.not_true, Bool.false_eq_true, if_neg, not_false_iff]
      exact ih queues
    · simp only [notify_subscribers, queue_put, hf, Bool.false_eq_true,
        if_neg, not_false_iff, Bool.not_false, if_pos]
      rw [ih]

/-- A queue that is not an actually-delivered subscriber keeps its
contents. -/
theorem notify_lookup_of_not (fails : Nat → Bool) (subs : List Nat)
    (snap : SearchProgress) (queues : List (Nat × List SearchProgress))
    (q : Nat) (h : fails q = true ∨ q ∉ subs) :
    dictGet q (notify_subscribers fails subs snap queues).1
      = dictGet q queues := by
  induction subs generalizing queues with
  | nil => rfl
  | cons q' rest ih =>
    have hrest : fails q = true ∨ q ∉ rest := by
      rcases h with h | h
      · exact Or.inl h
      · exact Or.inr (fun hm => h (List.mem_cons_of_mem _ hm))
    by_cases hf : fails q'
    · simp only [notify_subscribers, queue_put, hf, if_pos]
      exact ih queues hrest
    · simp only [notify_subscribers, queue_put, hf, Bool.false_eq_true,
        if_neg, not_false_iff]
      rw [ih _ hrest]
      have hne : q ≠ q' := by
        rcases h with h | h
        · intro he; exact hf (he ▸ h)
        · intro he; exact h (he ▸ List.mem_cons_self q' rest)
      exact dictGet_dictSet_ne hne _ _

/-- A subscriber whose put succeeds receives exactly one copy of the
snapshot, appended at the tail of its queue. -/
theorem notify_lookup_of_mem (fails : Nat → Bool) (subs : List Nat)
    (snap : SearchProgress) (queues : List (Nat × List SearchProgress))
    (q : Nat) (hnd : subs.Nodup) (hmem : q ∈ subs) (hf : fails q = false) :
    dictGet q (notify_subscribers fails subs snap queues).1
      = (dictGet q queues).map (fun l => l ++ [snap]) := by
  induction subs generalizing queues with
  | nil => simp at hmem
  | cons q' rest ih =>
    rcases List.nodup_cons.mp hnd with ⟨hq', hrestnd⟩
    by_cases he : q = q'
    · subst he
      simp only [notify_subscribers, queue_put, hf, Bool.false_eq_true,
        if_neg, not_false_iff]
      rw [notify_lookup_of_not fails rest snap _ q (Or.inr hq')]
      exact dictGet_dictSet_self q _ queues
    · have hmemrest : q ∈ rest := by
        rcases List.mem_cons.mp hmem with h | h
        · exact absurd h he
        · exact h
      by_cases hf' : fails q'
      · simp only [notify_subscribers, queue_put, hf', if_pos]
        exact ih queues hrestnd hmemrest
      · simp only [notify_subscribers, queue_put, hf', Bool.false_eq_true,
          if_neg, not_false_iff]
        rw [ih _ hrestnd hmemrest, dictGet_dictSet_ne he]

theorem stA_get : dictGet 0 stA.searches = some recA := rfl

theorem stA_reachable : Reachable stA :=
  Reachable.step Reachable.init (Step.create initState "Austin" 10 0)

theorem stB_reachable : Reachable stB :=
  Reachable.step stA_reachable (Step.sub stA 0 recA stA_get)

theorem stB_get : dictGet 0 stB.searches = some recA := rfl

theorem stC_reachable : Reachable stC :=
  Reachable.step stB_reachable (Step.sub stB 0 recA stB_get)

theorem stC_get : dictGet 0 stC.searches = some recA := rfl

theorem stC_subs : dictGet 0 stC.subscribers = some [0, 1] := rfl

theorem stT_get : dictGet 0 stT.searches = some recT := rfl

/-- Field-level description of `updated_record`: status, progress, step
and message are overwritten; location and creation data are untouched;
`estimated_completion` is recomputed only for non-terminal statuses;
`location_info` is replaced only by a truthy (non-empty) argument. -/
theorem updated_record_fields (search : SearchRecord) (status : String)
    (progress : ℚ) (current_step : String) (message : Option String)
    (location_info : Option (List (String × String))) (now : ℚ) :
    updated_record search status progress current_step message
        location_info now
      = { location := search.location,
          radius := search.radius,
          status := status,
          progress := progress,
          current_step := current_step,
          created_at := search.created_at,
          estimated_completion :=
            if status ∈ (["complete", "error"] : List String)
            then search.estimated_completion
            else now + (100 - progress) * (3 / 10),
          message := message,
          location_info :=
            match location_info with
            | some d => if d.isEmpty then search.location_info
                        else some (json_dumps d)
            | none => search.location_info } := by
  unfold updated_record
  cases location_info with
  | none =>
    by_cases hmem : status ∈ (["complete", "error"] : List String)
    · simp [hmem]
    · simp [hmem]
  | some d =>
    by_cases hd : d.isEmpty
    · by_cases hmem : status ∈ (["complete", "error"] : List String)
      · simp [hd, hmem]
      · simp [hd, hmem]
    · by_cases hmem : status ∈ (["complete", "error"] : List String)
      · simp [hd, hmem]
      · simp [hd, hmem]

/-- The snapshot built by `update_progress` carries the (possibly
recomputed) record `estimated_completion` unless the status is exactly
`"complete"` (source line 87: `if status != "complete" else None`). -/
theorem update_snapshot_est (search_id : Nat) (search3 : SearchRecord)
    (status : String) (progress : ℚ) (current_step : String)
    (message : Option String) :
    (update_snapshot search_id search3 status progress current_step
        message).estimated_completion
      = if status ≠ "complete" then some search3.estimated_completion
        else none := rfl

theorem updated_record_est (search : SearchRecord) (status : String)
    (progress : ℚ) (current_step : String) (message : Option String)
    (location_info : Option (List (String × String))) (now : ℚ) :
    (updated_record search status progress current_step message
        location_info now).estimated_completion
      = if status ∈ (["complete", "error"] : List String)
        then search.estimated_completion
        else now + (100 - progress) * (3 / 10) := by
  rw [updated_record_fields]

theorem updated_record_li (search : SearchRecord) (status : String)
    (progress : ℚ) (current_step : String) (message : Option String)
    (location_info : Option (List (String × String))) (now : ℚ) :
    (updated_record search status progress current_step message
        location_info now).location_info
      = match location_info with
        | some d => if d.isEmpty then search.location_info
                    else some (json_dumps d)
        | none => search.location_info := by
  rw [updated_record_fields]

/-! ## Claims -/

/-- Claim C1: `create_search(location, radius)` returns an id mapped to a
fresh record with status `"pending"`, progress `0.0`, current step
`"Initializing search"`, `estimated_completion = now + 30` seconds, no
message and no location info, with an empty subscriber list; an immediate
`subscribe` on that id succeeds, and the first (and only) snapshot on the
returned channel has status `"pending"` and progress `0.0`. -/
theorem claim_C1 (st : ManagerState) (location : String)
    (radius now : ℚ) :
    get_search_status (create_search st location radius now).1
        (create_search st location radius now).2
      = some
        { location := location,
          radius := radius,
          status := "pending",
          progress := 0,
          current_step := "Initializing search",
          created_at := now,
          estimated_completion := now + 30,
          message := none,
          location_info := none } ∧
    dictGet (create_search st location radius now).2
        (create_search st location radius now).1.subscribers = some [] ∧
    isError (subscribe (create_search st location radius now).1
        (create_search st location radius now).2) = false ∧
    ∀ st' q,
      subscribe (create_search st location radius now).1
          (create_search st location radius now).2 = Except.ok (st', q) →
      dictGet q st'.queues
        = some
          [{ search_id := (create_search st location radius now).2,
             status := "pending",
             progress_percentage := 0,
             current_step := "Initializing search",
             estimated_completion := some (now + 30),
             message := none,
             location_info := none }] := by
  have hrec : dictGet (create_search st location radius now).2
      (create_search st location radius now).1.searches
      = some
        { location := location,
          radius := radius,
          status := "pending",
          progress := 0,
          current_step := "Initializing search",
          created_at := now,
          estimated_completion := now + 30,
          message := none,
          location_info := none } := by
    unfold create_search
    exact dictGet_dictInsert_self _ _ _
  refine ⟨hrec, ?_, ?_, ?_⟩
  · unfold create_search
    exact dictGet_dictInsert_self _ _ _
  · rw [subscribe_of_some hrec]
    rfl
  · intro st' q hok
    rw [subscribe_of_some hrec] at hok
    rcases Prod.mk.injEq .. ▸ Except.ok.inj hok with ⟨hst', hq⟩
    rw [← hst', ← hq]
    unfold subscribe_state
    exact dictGet_dictInsert_self _ _ _

/-- Claim C2: for an id not in the record table, `subscribe` raises
(`ValueError`), while `update_progress` returns without raising and
leaves the whole manager state unchanged; the remaining public
operations (`unsubscribe`, `get_search_status`) also return normally
without touching state, so `subscribe` is the only operation that raises
for an unknown id. -/
theorem claim_C2 {st : ManagerState} {search_id : Nat}
    (hr : Reachable st) (h : dictGet search_id st.searches = none) :
    isError (subscribe st search_id) = true ∧
    (∀ (status : String) (progress : ℚ) (current_step : String)
       (message : Option String)
       (location_info : Option (List (String × String))) (now : ℚ)
       (fails : Nat → Bool),
       update_progress st search_id status progress current_step message
         location_info now fails = (st, none, [])) ∧
    (∀ queue, unsubscribe st search_id queue = st) ∧
    get_search_status st search_id = none := by
  refine ⟨?_, ?_, ?_, h⟩
  · rw [subscribe_of_none h]
    rfl
  · intro status progress current_step message location_info now fails
    exact update_progress_of_none status progress current_step message
      location_info now fails h
  · intro queue
    have hsubs : (dictGet search_id st.subscribers).isSome = false := by
      rw [← (reachable_inv hr).presence search_id, h]
      rfl
    unfold unsubscribe
    rw [hsubs]
    simp

/-- Witness for C2 at the freshly constructed manager and id 0. -/
theorem claim_C2_witness :
    (dictGet 0 initState.searches = none) ∧
    (isError (subscribe initState 0) = true ∧
    (∀ (status : String) (progress : ℚ) (current_step : String)
       (message : Option String)
       (location_info : Option (List (String × String))) (now : ℚ)
       (fails : Nat → Bool),
       update_progress initState 0 status progress current_step message
         location_info now fails = (initState, none, [])) ∧
    (∀ queue, unsubscribe initState 0 queue = initState) ∧
    get_search_status initState 0 = none) :=
  ⟨rfl, claim_C2 Reachable.init rfl⟩

/-- Claim C6: in every reachable manager state, a subscriber list exists
for a search id exactly when a search record exists for that id (the two
tables always have the same keys). -/
theorem claim_C6 {st : ManagerState} (h : Reachable st) (search_id : Nat) :
    (dictGet search_id st.searches).isSome
      = (dictGet search_id st.subscribers).isSome :=
  (reachable_inv h).presence search_id

/-- Witness for C6 at the reachable state reached by
`create_search` followed by `subscribe`. -/
theorem claim_C6_witness :
    (dictGet 0 stB.searches).isSome = (dictGet 0 stB.subscribers).isSome :=
  claim_C6 stB_reachable 0

/-- Claim C8: `unsubscribe` removes the queue from the subscriber list
when present, and is idempotent: repeating it, or calling it when the id
or the queue is already gone, changes nothing (and, being a total
function of the state, raises nothing). -/
theorem claim_C8 {st : ManagerState} (h : Reachable st)
    (search_id queue : Nat) :
    (∀ l, dictGet search_id st.subscribers = some l →
       dictGet search_id (unsubscribe st search_id queue).subscribers
         = some (l.erase queue)) ∧
    unsubscribe (unsubscribe st search_id queue) search_id queue
      = unsubscribe st search_id queue ∧
    (dictGet search_id st.subscribers = none →
       unsubscribe st search_id queue = st) ∧
    (∀ l, dictGet search_id st.subscribers = some l → queue ∉ l →
       unsubscribe st search_id queue = st) := by
  have hinv := reachable_inv h
  have hnone : dictGet search_id st.subscribers = none →
      unsubscribe st search_id queue = st := by
    intro hn
    have hs : (dictGet search_id st.subscribers).isSome = false := by
      rw [hn]; rfl
    unfold unsubscribe
    rw [hs]
    simp
  refine ⟨?_, ?_, hnone, ?_⟩
  · intro l hl
    have hs : (dictGet search_id st.subscribers).isSome = true := by
      rw [hl]; rfl
    unfold unsubscribe
    rw [if_pos hs]
    dsimp only
    rw [dictGet_dictSet_self, hl]
    rfl
  · cases hg : dictGet search_id st.subscribers with
    | none =>
      rw [hnone hg, hnone hg]
    | some l =>
      have hs : (dictGet search_id st.subscribers).isSome = true := by
        rw [hg]; rfl
      have hu1 : unsubscribe st search_id queue
          = { st with subscribers :=
                dictSet search_id (fun l => l.erase queue) st.subscribers } := by
        unfold unsubscribe
        rw [if_pos hs]
      rw [hu1]
      have hs2 : (dictGet search_id
          (dictSet search_id (fun l => l.erase queue) st.subscribers)).isSome
          = true := by
        rw [isSome_dictGet_dictSet]; exact hs
      unfold unsubscribe
      rw [if_pos hs2]
      dsimp only
      rw [dictSet_dictSet]
      have : dictSet search_id (fun v => (v.erase queue).erase queue)
          st.subscribers
          = dictSet search_id (fun l => l.erase queue) st.subscribers := by
        apply dictSet_congr_of
        intro p hp _
        have hpnd : List.Nodup p.2 := hinv.subsNodup p hp
        exact List.erase_of_not_mem (List.Nodup.not_mem_erase hpnd)
      rw [this]
  · intro l hl hq
    have hs : (dictGet search_id st.subscribers).isSome = true := by
      rw [hl]; rfl
    unfold unsubscribe
    rw [if_pos hs]
    have : dictSet search_id (fun l => l.erase queue) st.subscribers
        = st.subscribers := by
      apply dictSet_eq_self_of
      intro p hp hpk
      have : p.2 = l := by
        have hmem : (search_id, p.2) ∈ st.subscribers := by
          rw [← hpk]; exact hp
        have := dictGet_of_mem_nodupKeys hinv.subKeys hmem
        rw [hl] at this
        exact (Option.some.inj this).symm
      rw [this]
      exact List.erase_of_not_mem hq
    rw [this]

/-- Witness for C8 at the reachable state with one subscriber. -/
theorem claim_C8_witness :
    (∀ l, dictGet 0 stB.subscribers = some l →
       dictGet 0 (unsubscribe stB 0 0).subscribers = some (l.erase 0)) ∧
    unsubscribe (unsubscribe stB 0 0) 0 0 = unsubscribe stB 0 0 ∧
    (dictGet 0 stB.subscribers = none → unsubscribe stB 0 0 = stB) ∧
    (∀ l, dictGet 0 stB.subscribers = some l → (0 : Nat) ∉ l →
       unsubscribe stB 0 0 = stB) :=
  claim_C8 stB_reachable 0 0

/-- Claim C5: an `update_progress` on a known id enqueues the snapshot to
the subscriber queues in registration order, skipping exactly those whose
put fails: the delivered list is the registration-ordered sublist of
non-failing subscribers, each non-failing subscriber queue gets exactly
the snapshot appended, each failing subscriber queue is unchanged, and
`update_progress` returns normally (it is a total function). -/
theorem claim_C5 {st : ManagerState} {search_id : Nat}
    {search : SearchRecord} {subs : List Nat}
    (h1 : dictGet search_id st.searches = some search)
    (h2 : dictGet search_id st.subscribers = some subs)
    (hnd : subs.Nodup) (status : String) (progress : ℚ)
    (current_step : String) (message : Option String)
    (location_info : Option (List (String × String))) (now : ℚ)
    (fails : Nat → Bool) :
    (update_progress st search_id status progress current_step message
        location_info now fails).2.2
      = subs.filter (fun q => !fails q) ∧
    (∀ q ∈ subs, fails q = false → ∀ s,
       (update_progress st search_id status progress current_step message
           location_info now fails).2.1 = some s →
       dictGet q (update_progress st search_id status progress current_step
           message location_info now fails).1.queues
         = (dictGet q st.queues).map (fun l => l ++ [s])) ∧
    (∀ q ∈ subs, fails q = true →
       dictGet q (update_progress st search_id status progress current_step
           message location_info now fails).1.queues
         = dictGet q st.queues) := by
  rw [update_progress_of_some status progress current_step message
    location_info now fails h1]
  rw [h2]
  refine ⟨notify_delivered _ _ _ _, ?_, ?_⟩
  · intro q hq hf s hs
    rw [← Option.some.inj hs]
    exact notify_lookup_of_mem fails subs _ st.queues q hnd hq hf
  · intro q hq hf
    exact notify_lookup_of_not fails subs _ st.queues q (Or.inl hf)

/-- Witness for C5 at the reachable state with two subscribers, where the
first subscriber's put fails: only the second receives the snapshot. -/
theorem claim_C5_witness :
    (dictGet 0 stC.searches = some recA) ∧
    (dictGet 0 stC.subscribers = some [0, 1]) ∧
    (((update_progress stC 0 "searching" 50 "Querying sources" none none 2
        (fun q => q == 0)).2.2
      = [0, 1].filter (fun q => !(q == 0))) ∧
    (∀ q ∈ ([0, 1] : List Nat), (fun q => q == 0) q = false → ∀ s,
       (update_progress stC 0 "searching" 50 "Querying sources" none none 2
           (fun q => q == 0)).2.1 = some s →
       dictGet q (update_progress stC 0 "searching" 50 "Querying sources"
           none none 2 (fun q => q == 0)).1.queues
         = (dictGet q stC.queues).map (fun l => l ++ [s])) ∧
    (∀ q ∈ ([0, 1] : List Nat), (fun q => q == 0) q = true →
       dictGet q (update_progress stC 0 "searching" 50 "Querying sources"
           none none 2 (fun q => q == 0)).1.queues
         = dictGet q stC.queues)) :=
  ⟨stC_get, stC_subs,
    claim_C5 stC_get stC_subs (by decide) "searching" 50 "Querying sources"
      none none 2 (fun q => q == 0)⟩

/-- Counterexample to claim C4 as stated: at a known id with one
subscriber, an update with the terminal status `"error"` produces and
delivers a snapshot whose `estimated_completion` is PRESENT (the stale
stored value), because the source only blanks it for `"complete"`. -/
theorem claim_C4_counterexample :
    (update_progress stB 0 "error" 50 "step" none none 7
        (fun _ => false)).2.1
      = some
        { search_id := 0,
          status := "error",
          progress_percentage := 50,
          current_step := "step",
          estimated_completion := some recA.estimated_completion,
          message := none,
          location_info := none } ∧
    ((update_progress stB 0 "error" 50 "step" none none 7
        (fun _ => false)).2.1).map (fun s => s.estimated_completion.isSome)
      = some true := ⟨rfl, rfl⟩

/-- Claim C4 (amended): on a known id, a non-terminal status recomputes
`estimated_completion` to `now + (100 - progress) * 0.3` both in the
record and in the delivered snapshot; status `"complete"` makes it absent
in the snapshot; but status `"error"` (also terminal) leaves the
previously stored value in place and the snapshot carries that stale
value — it is NOT absent. -/
theorem claim_C4 {st : ManagerState} {search_id : Nat}
    {search : SearchRecord}
    (h1 : dictGet search_id st.searches = some search) (status : String)
    (progress : ℚ) (current_step : String) (message : Option String)
    (location_info : Option (List (String × String))) (now : ℚ)
    (fails : Nat → Bool) :
    (status ≠ "complete" → status ≠ "error" →
       (∀ s, (update_progress st search_id status progress current_step
            message location_info now fails).2.1 = some s →
          s.estimated_completion
            = some (now + (100 - progress) * (3 / 10))) ∧
       (get_search_status (update_progress st search_id status progress
            current_step message location_info now fails).1
            search_id).map SearchRecord.estimated_completion
         = some (now + (100 - progress) * (3 / 10))) ∧
    (status = "complete" →
       ∀ s, (update_progress st search_id status progress current_step
            message location_info now fails).2.1 = some s →
         s.estimated_completion = none) ∧
    (status = "error" →
       (∀ s, (update_progress st search_id status progress current_step
            message location_info now fails).2.1 = some s →
          s.estimated_completion = some search.estimated_completion) ∧
       (get_search_status (update_progress st search_id status progress
            current_step message location_info now fails).1
            search_id).map SearchRecord.estimated_completion
         = some search.estimated_completion) := by
  rw [update_progress_of_some status progress current_step message
    location_info now fails h1]
  refine ⟨?_, ?_, ?_⟩
  · intro hc he
    have hmem : status ∉ (["complete", "error"] : List String) := by
      simp [hc, he]
    constructor
    · intro s hs
      rw [← Option.some.inj hs, update_snapshot_est, if_pos hc,
        updated_record_est, if_neg hmem]
    · unfold get_search_status
      dsimp only
      rw [dictGet_dictSet_self, h1]
      simp [updated_record_est, hmem]
  · intro hc
    subst hc
    intro s hs
    rw [← Option.some.inj hs, update_snapshot_est]
    simp
  · intro hc
    subst hc
    have hmem : ("error" : String) ∈ (["complete", "error"] : List String) := by
      simp
    constructor
    · intro s hs
      rw [← Option.some.inj hs, update_snapshot_est,
        if_pos (by decide : ("error" : String) ≠ "complete"),
        updated_record_est, if_pos hmem]
    · unfold get_search_status
      dsimp only
      rw [dictGet_dictSet_self, h1]
      simp [updated_record_est, hmem]

/-- Witness for C4 (amended) at the one-subscriber state with the
non-terminal status `"geocoding"`. -/
theorem claim_C4_witness :
    (dictGet 0 stB.searches = some recA) ∧
    (("geocoding" : String) ≠ "complete" → ("geocoding" : String) ≠ "error" →
       (∀ s, (update_progress stB 0 "geocoding" 10 "Converting location"
            none none 1 (fun _ => false)).2.1 = some s →
          s.estimated_completion = some ((1 : ℚ) + (100 - 10) * (3 / 10))) ∧
       (get_search_status (update_progress stB 0 "geocoding" 10
            "Converting location" none none 1 (fun _ => false)).1
            0).map SearchRecord.estimated_completion
         = some ((1 : ℚ) + (100 - 10) * (3 / 10))) ∧
    (("geocoding" : String) = "complete" →
       ∀ s, (update_progress stB 0 "geocoding" 10 "Converting location"
            none none 1 (fun _ => false)).2.1 = some s →
         s.estimated_completion = none) ∧
    (("geocoding" : String) = "error" →
       (∀ s, (update_progress stB 0 "geocoding" 10 "Converting location"
            none none 1 (fun _ => false)).2.1 = some s →
          s.estimated_completion = some recA.estimated_completion) ∧
       (get_search_status (update_progress stB 0 "geocoding" 10
            "Converting location" none none 1 (fun _ => false)).1
            0).map SearchRecord.estimated_completion
         = some recA.estimated_completion) :=
  ⟨stB_get, claim_C4 stB_get "geocoding" 10 "Converting location" none
    none 1 (fun _ => false)⟩

/-- Counterexample to claim C7 as stated: passing the PROVIDED but empty
dict `{}` as `location_info` does not replace the stored value, because
the source tests `if location_info:` (truthiness), not `is not None`.
The record keeps the old serialized payload, which differs from the
serialized form of the provided argument. -/
theorem claim_C7_counterexample :
    (get_search_status (update_progress stL 0 "searching" 50
        "Querying sources" none (some []) 2 (fun _ => false)).1 0).map
        SearchRecord.location_info
      = some (some (json_dumps [("city", "Austin")])) ∧
    json_dumps ([] : List (String × String))
      ≠ json_dumps [("city", "Austin")] := by
  refine ⟨rfl, ?_⟩
  decide

/-- Claim C7 (amended): on a known id, `update_progress` replaces the
stored `location_info` with the serialized form of the argument exactly
when the argument is provided and non-empty (truthy); when the argument
is omitted (`None`) or is the empty dict, the previous value is
preserved; status, progress, current step and message are updated in
every case. -/
theorem claim_C7 {st : ManagerState} {search_id : Nat}
    {search : SearchRecord}
    (h1 : dictGet search_id st.searches = some search) (status : String)
    (progress : ℚ) (current_step : String) (message : Option String)
    (location_info : Option (List (String × String))) (now : ℚ)
    (fails : Nat → Bool) :
    (∀ d, location_info = some d → d.isEmpty = false →
       (get_search_status (update_progress st search_id status progress
            current_step message location_info now fails).1
            search_id).map SearchRecord.location_info
         = some (some (json_dumps d))) ∧
    (location_info = none ∨ location_info = some [] →
       (get_search_status (update_progress st search_id status progress
            current_step message location_info now fails).1
            search_id).map SearchRecord.location_info
         = some search.location_info) ∧
    (get_search_status (update_progress st search_id status progress
         current_step message location_info now fails).1
         search_id).map SearchRecord.status = some status ∧
    (get_search_status (update_progress st search_id status progress
         current_step message location_info now fails).1
         search_id).map SearchRecord.progress = some progress ∧
    (get_search_status (update_progress st search_id status progress
         current_step message location_info now fails).1
         search_id).map SearchRecord.current_step = some current_step ∧
    (get_search_status (update_progress st search_id status progress
         current_step message location_info now fails).1
         search_id).map SearchRecord.message = some message := by
  rw [update_progress_of_some status progress current_step message
    location_info now fails h1]
  have hget : ∀ {β : Type} (f : SearchRecord → β),
      (dictGet search_id (dictSet search_id
          (fun _ => updated_record search status progress current_step
            message location_info now) st.searches)).map f
        = some (f (updated_record search status progress current_step
            message location_info now)) := by
    intro β f
    rw [dictGet_dictSet_self, h1]
    rfl
  refine ⟨?_, ?_, ?_, ?_, ?_, ?_⟩
  · intro d hd hne
    unfold get_search_status
    dsimp only
    rw [hget, updated_record_li, hd]
    simp [hne]
  · intro hcase
    unfold get_search_status
    dsimp only
    rw [hget, updated_record_li]
    rcases hcase with hcase | hcase
    · rw [hcase]
    · rw [hcase]
      simp
  · unfold get_search_status
    dsimp only
    rw [hget, updated_record_fields]
  · unfold get_search_status
    dsimp only
    rw [hget, updated_record_fields]
  · unfold get_search_status
    dsimp only
    rw [hget, updated_record_fields]
  · unfold get_search_status
    dsimp only
    rw [hget, updated_record_fields]

/-- Witness for C7 (amended) at the one-subscriber state with a provided
non-empty `location_info`. -/
theorem claim_C7_witness :
    (dictGet 0 stB.searches = some recA) ∧
    ((∀ d, (some [("city", "Austin")] :
          Option (List (String × String))) = some d → d.isEmpty = false →
       (get_search_status (update_progress stB 0 "geocoding" 10
            "Converting location" none (some [("city", "Austin")]) 1
            (fun _ => false)).1 0).map SearchRecord.location_info
         = some (some (json_dumps d))) ∧
    ((some [("city", "Austin")] :
        Option (List (String × String))) = none ∨
       (some [("city", "Austin")] :
        Option (List (String × String))) = some [] →
       (get_search_status (update_progress stB 0 "geocoding" 10
            "Converting location" none (some [("city", "Austin")]) 1
            (fun _ => false)).1 0).map SearchRecord.location_info
         = some recA.location_info) ∧
    (get_search_status (update_progress stB 0 "geocoding" 10
         "Converting location" none (some [("city", "Austin")]) 1
         (fun _ => false)).1 0).map SearchRecord.status
      = some "geocoding" ∧
    (get_search_status (update_progress stB 0 "geocoding" 10
         "Converting location" none (some [("city", "Austin")]) 1
         (fun _ => false)).1 0).map SearchRecord.progress = some 10 ∧
    (get_search_status (update_progress stB 0 "geocoding" 10
         "Converting location" none (some [("city", "Austin")]) 1
         (fun _ => false)).1 0).map SearchRecord.current_step
      = some "Converting location" ∧
    (get_search_status (update_progress stB 0 "geocoding" 10
         "Converting location" none (some [("city", "Austin")]) 1
         (fun _ => false)).1 0).map SearchRecord.message = some none) :=
  ⟨stB_get, claim_C7 stB_get "geocoding" 10 "Converting location" none
    (some [("city", "Austin")]) 1 (fun _ => false)⟩

/-- Counterexample to claim C3 as stated: after the `"complete"` update,
the record survives until the delayed cleanup runs, so a further
`update_progress` on the same id still delivers a snapshot to the
subscribed channel — the channel sees `pending, complete, pending`, i.e.
a snapshot IS delivered for that id after the terminal one. -/
theorem claim_C3_counterexample :
    (dictGet 0 ((update_progress stT 0 "pending" 50 "again" none none 6
        (fun _ => false)).1.queues)).map
        (fun l => l.map SearchProgress.status)
      = some ["pending", "complete", "pending"] ∧
    (update_progress stT 0 "pending" 50 "again" none none 6
        (fun _ => false)).2.2 = [0] := ⟨rfl, rfl⟩

/-- Claim C3 (amended): when `update_progress(id, "complete", 100, "done")`
runs on a known id, every channel subscribed at that moment (none of
whose puts fail) receives exactly one more snapshot from this call, with
status `"complete"`, and cleanup of the id is scheduled; once the
scheduled cleanup has run the id is gone from both tables, and for any
state in which the id is absent `update_progress` delivers nothing and
changes nothing while `subscribe` fails — so nothing further can be
delivered for the id.  Before the cleanup runs, however, further
`update_progress` or `subscribe` calls on the id can still deliver
snapshots (see the counterexample). -/
theorem claim_C3 {st : ManagerState} {search_id : Nat}
    {search : SearchRecord} {subs : List Nat}
    (h1 : dictGet search_id st.searches = some search)
    (h2 : dictGet search_id st.subscribers = some subs)
    (hnd : subs.Nodup) (message : Option String)
    (location_info : Option (List (String × String))) (now : ℚ)
    (fails : Nat → Bool) (hf : ∀ q ∈ subs, fails q = false) :
    (update_progress st search_id "complete" 100 "done" message
        location_info now fails).2.2 = subs ∧
    (∀ s, (update_progress st search_id "complete" 100 "done" message
        location_info now fails).2.1 = some s → s.status = "complete") ∧
    (∀ q ∈ subs, ∀ s,
       (update_progress st search_id "complete" 100 "done" message
           location_info now fails).2.1 = some s →
       dictGet q (update_progress st search_id "complete" 100 "done"
           message location_info now fails).1.queues
         = (dictGet q st.queues).map (fun l => l ++ [s])) ∧
    search_id ∈ (update_progress st search_id "complete" 100 "done"
        message location_info now fails).1.pendingCleanups ∧
    dictGet search_id (cleanup_search (update_progress st search_id
        "complete" 100 "done" message location_info now fails).1
        search_id).searches = none ∧
    dictGet search_id (cleanup_search (update_progress st search_id
        "complete" 100 "done" message location_info now fails).1
        search_id).subscribers = none ∧
    (∀ st2 : ManagerState, dictGet search_id st2.searches = none →
       (∀ (status : String) (progress : ℚ) (current_step : String)
          (msg : Option String)
          (li : Option (List (String × String))) (n : ℚ)
          (f : Nat → Bool),
          update_progress st2 search_id status progress current_step msg
            li n f = (st2, none, [])) ∧
       isError (subscribe st2 search_id) = true) := by
  rw [update_progress_of_some "complete" 100 "done" message location_info
    now fails h1, h2]
  simp only [Option.getD_some]
  refine ⟨?_, ?_, ?_, ?_, ?_, ?_, ?_⟩
  · rw [notify_delivered]
    exact List.filter_eq_self.mpr (fun q hq => by rw [hf q hq]; rfl)
  · intro s hs
    rw [← Option.some.inj hs]
    rfl
  · intro q hq s hs
    rw [← Option.some.inj hs]
    exact notify_lookup_of_mem fails subs _ st.queues q hnd hq (hf q hq)
  · dsimp only
    have hmem : ("complete" : String) ∈
        (["complete", "error"] : List String) := by simp
    rw [if_pos hmem]
    exact List.mem_append_right _ (by simp)
  · unfold cleanup_search
    dsimp only
    rw [dictGet_dictDel_self]
  · unfold cleanup_search
    dsimp only
    rw [dictGet_dictDel_self]
  · intro st2 hnone
    refine ⟨?_, ?_⟩
    · intro status progress current_step msg li n f
      exact update_progress_of_none status progress current_step msg li
        n f hnone
    · rw [subscribe_of_none hnone]
      rfl

/-- Witness for C3 (amended) at the one-subscriber state. -/
theorem claim_C3_witness :
    (dictGet 0 stB.searches = some recA) ∧
    (dictGet 0 stB.subscribers = some [0]) ∧
    ((update_progress stB 0 "complete" 100 "done" none none 5
        (fun _ => false)).2.2 = [0] ∧
    (∀ s, (update_progress stB 0 "complete" 100 "done" none none 5
        (fun _ => false)).2.1 = some s → s.status = "complete") ∧
    (∀ q ∈ ([0] : List Nat), ∀ s,
       (update_progress stB 0 "complete" 100 "done" none none 5
           (fun _ => false)).2.1 = some s →
       dictGet q (update_progress stB 0 "complete" 100 "done" none none 5
           (fun _ => false)).1.queues
         = (dictGet q stB.queues).map (fun l => l ++ [s])) ∧
    (0 : Nat) ∈ (update_progress stB 0 "complete" 100 "done" none none 5
        (fun _ => false)).1.pendingCleanups ∧
    dictGet 0 (cleanup_search (update_progress stB 0 "complete" 100
        "done" none none 5 (fun _ => false)).1 0).searches = none ∧
    dictGet 0 (cleanup_search (update_progress stB 0 "complete" 100
        "done" none none 5 (fun _ => false)).1 0).subscribers = none ∧
    (∀ st2 : ManagerState, dictGet 0 st2.searches = none →
       (∀ (status : String) (progress : ℚ) (current_step : String)
          (msg : Option String)
          (li : Option (List (String × String))) (n : ℚ)
          (f : Nat → Bool),
          update_progress st2 0 status progress current_step msg li n f
            = (st2, none, [])) ∧
       isError (subscribe st2 0) = true)) :=
  ⟨stB_get, rfl,
    claim_C3 stB_get rfl (by decide) none none 5 (fun _ => false)
      (fun q _ => rfl)⟩

/-- Claim C9: the initial snapshot enqueued by `subscribe` always carries
the record's stored `estimated_completion` (source line 127 copies it
unconditionally, and the stored field is never `None`), whatever the
status — including the terminal statuses — whereas the snapshot built by
`update_progress` for status `"complete"` has `estimated_completion`
absent. -/
theorem claim_C9 {st : ManagerState} {search_id : Nat}
    {search : SearchRecord}
    (h : dictGet search_id st.searches = some search) :
    isError (subscribe st search_id) = false ∧
    (∀ st' q, subscribe st search_id = Except.ok (st', q) →
       dictGet q st'.queues = some [initial_snapshot search_id search]) ∧
    (initial_snapshot search_id search).status = search.status ∧
    (initial_snapshot search_id search).estimated_completion
      = some search.estimated_completion ∧
    ((initial_snapshot search_id search).estimated_completion).isSome
      = true ∧
    (∀ (progress : ℚ) (current_step : String) (message : Option String)
       (li : Option (List (String × String))) (now : ℚ)
       (fails : Nat → Bool) s,
       (update_progress st search_id "complete" progress current_step
           message li now fails).2.1 = some s →
       s.estimated_completion = none) := by
  refine ⟨?_, ?_, rfl, rfl, rfl, ?_⟩
  · rw [subscribe_of_some h]
    rfl
  · intro st' q hok
    rw [subscribe_of_some h] at hok
    rcases Prod.mk.injEq .. ▸ Except.ok.inj hok with ⟨hst', hq⟩
    rw [← hst', ← hq]
    unfold subscribe_state
    exact dictGet_dictInsert_self _ _ _
  · intro progress current_step message li now fails s hs
    rw [update_progress_of_some "complete" progress current_step message
      li now fails h] at hs
    rw [← Option.some.inj hs, update_snapshot_est]
    simp

/-- Witness for C9 at the post-`"complete"`, pre-cleanup state: the
subscriber attaching there gets the terminal status with a present
`estimated_completion`. -/
theorem claim_C9_witness :
    (dictGet 0 stT.searches = some recT) ∧
    recT.status = "complete" ∧
    (isError (subscribe stT 0) = false ∧
    (∀ st' q, subscribe stT 0 = Except.ok (st', q) →
       dictGet q st'.queues = some [initial_snapshot 0 recT]) ∧
    (initial_snapshot 0 recT).status = recT.status ∧
    (initial_snapshot 0 recT).estimated_completion
      = some recT.estimated_completion ∧
    ((initial_snapshot 0 recT).estimated_completion).isSome = true ∧
    (∀ (progress : ℚ) (current_step : String) (message : Option String)
       (li : Option (List (String × String))) (now : ℚ)
       (fails : Nat → Bool) s,
       (update_progress stT 0 "complete" progress current_step message li
           now fails).2.1 = some s →
       s.estimated_completion = none)) :=
  ⟨stT_get, rfl, claim_C9 stT_get⟩

/-- Claim C10: on an unknown search id the resolver does not raise: it
catches the `ValueError` from `subscribe` and yields exactly one
synthetic snapshot with status `"error"`, progress `0.0` and current
step `"Search not found"`, then terminates without touching the manager
(no queue was obtained, so the `finally` block skips `unsubscribe`);
and whenever `subscribe` did return a queue, the resolver's
guaranteed-cleanup block invokes `unsubscribe` on that queue on every
modelled exit path (terminal snapshot or consumer disconnect). -/
theorem claim_C10 {st : ManagerState} {search_id : Nat}
    (arriving : List SearchProgress)
    (h : dictGet search_id st.searches = none) :
    (search_progress_resolver st search_id arriving none).1.yielded
      = [not_found_snapshot search_id] ∧
    (not_found_snapshot search_id).status = "error" ∧
    (not_found_snapshot search_id).progress_percentage = 0 ∧
    (not_found_snapshot search_id).current_step = "Search not found" ∧
    (search_progress_resolver st search_id arriving none).1.unsubscribed
      = false ∧
    (search_progress_resolver st search_id arriving none).2 = st ∧
    (∀ (st2 : ManagerState) (sid2 : Nat) (ar : List SearchProgress)
       (cut : Option Nat) (st3 : ManagerState) (q : Nat),
       subscribe st2 sid2 = Except.ok (st3, q) →
       (search_progress_resolver st2 sid2 ar cut).1.unsubscribed = true ∧
       (search_progress_resolver st2 sid2 ar cut).2
         = unsubscribe st3 sid2 q) := by
  have herr : search_progress_resolver st search_id arriving none
      = ({ yielded := [not_found_snapshot search_id],
           unsubscribed := false }, st) := by
    unfold search_progress_resolver
    rw [subscribe_of_none h]
    rfl
  refine ⟨?_, rfl, rfl, rfl, ?_, ?_, ?_⟩
  · rw [herr]
  · rw [herr]
  · rw [herr]
  · intro st2 sid2 ar cut st3 q hok
    have hres : search_progress_resolver st2 sid2 ar cut
        = ({ yielded := takeOpt cut (stream_until_terminal
               (((dictGet q st3.queues).getD []) ++ ar)),
             unsubscribed := true }, unsubscribe st3 sid2 q) := by
      unfold search_progress_resolver
      rw [hok]
    rw [hres]
    exact ⟨rfl, rfl⟩

/-- Witness for C10 at the freshly constructed manager and id 7. -/
theorem claim_C10_witness :
    (dictGet 7 initState.searches = none) ∧
    ((search_progress_resolver initState 7 [] none).1.yielded
      = [not_found_snapshot 7] ∧
    (not_found_snapshot 7).status = "error" ∧
    (not_found_snapshot 7).progress_percentage = 0 ∧
    (not_found_snapshot 7).current_step = "Search not found" ∧
    (search_progress_resolver initState 7 [] none).1.unsubscribed
      = false ∧
    (search_progress_resolver initState 7 [] none).2 = initState ∧
    (∀ (st2 : ManagerState) (sid2 : Nat) (ar : List SearchProgress)
       (cut : Option Nat) (st3 : ManagerState) (q : Nat),
       subscribe st2 sid2 = Except.ok (st3, q) →
       (search_progress_resolver st2 sid2 ar cut).1.unsubscribed = true ∧
       (search_progress_resolver st2 sid2 ar cut).2
         = unsubscribe st3 sid2 q)) :=
  ⟨rfl, claim_C10 [] rfl⟩

end GymIntel
